import Mathlib

/-
Verification of the EPOS serial protocol driver (epos.c) against its
natural-language specification.

The driver is a reactive state machine: `write_object` admits a command from
state READY, encodes an 11-byte frame into `outbound_payload`, and submits the
opcode byte to the serial transport; `serial_callback` consumes asynchronous
transport events (bytes receivable, transmit space free) and advances the
state.  The shallow embedding below passes the driver's mutable variables
(`state`, the payload buffers and their recorded lengths) as an explicit
record, and passes the transport's responses (the `num_not_written` result of
rt_spwrite, the byte delivered by rt_spread) as explicit oracle arguments.
-/

namespace Epos

/-- MAX_PAYLOAD from epos.c: the serial FIFO capacity (RT_SP_FIFO_SIZE_14),
to which the transmit-free comparisons in serial_callback are tied. -/
def MAX_PAYLOAD : Int := 14

/-- Driver state machine codes, driver_state_t in epos.c. -/
inductive driver_state_t where
  | READY
  | SENDING_OPCODE
  | WAITING_BEGIN_ACK
  | SENDING_DATA
  | WAITING_END_ACK
  | WAITING_RESPONSE_LEN
  | WAITING_RESPONSE_DATA
  | SENDING_RESPONSE_ACK
  deriving DecidableEq

/-- Return codes of the command API, write_status_t in epos.c. -/
inductive write_status_t where
  | SUCCESS
  | SERIAL_BUF_FULL
  | DRIVER_BUSY
  | UNEXPECTED_ERROR
  deriving DecidableEq

/-- The driver's mutable variables from epos.c: the current state, the two
payload buffers (byte arrays, modelled as functions from index to byte) and
their recorded lengths. -/
structure Driver where
  state : driver_state_t
  outbound_payload : Nat → Nat
  inbound_payload : Nat → Nat
  outbound_payload_len : Int
  inbound_payload_len : Int

/-- One shift-and-xor round of the reflected CRC-CCITT polynomial 0x8408,
the generator step of the crc_ccitt_table in linux/crc-ccitt. -/
def crcCcittStep (c : Nat) : Nat :=
  if c % 2 = 1 then (c / 2) ^^^ 0x8408 else c / 2

/-- Entry i of the linux crc_ccitt_table: eight generator rounds applied to
the byte value. -/
def crc_ccitt_table (i : Nat) : Nat :=
  crcCcittStep^[8] (i % 256)

/-- crc_ccitt_byte from linux/crc-ccitt.h: one byte folded into a running
16-bit CRC, seedable, table-driven form of the reflected CCITT polynomial. -/
def crc_ccitt_byte (crc c : Nat) : Nat :=
  (crc % 65536) / 256 ^^^ crc_ccitt_table ((crc ^^^ c) % 256)

/-- crc_ccitt from linux/crc-ccitt: fold crc_ccitt_byte over a byte list,
starting from the given seed. -/
def crc_ccitt (crc : Nat) (bytes : List Nat) : Nat :=
  bytes.foldl crc_ccitt_byte crc

/-- send_opcode from epos.c, with the result of rt_spwrite for the single
opcode byte passed in as `num_not_written`: 0 not written moves the state to
SENDING_OPCODE and reports SUCCESS, 1 not written reports SERIAL_BUF_FULL with
no state change, anything else (rt_spwrite returning -ENODEV) reports
UNEXPECTED_ERROR with no state change. -/
def send_opcode (d : Driver) (num_not_written : Int) : write_status_t × Driver :=
  if num_not_written = 0 then (.SUCCESS, { d with state := .SENDING_OPCODE })
  else if num_not_written = 1 then (.SERIAL_BUF_FULL, d)
  else (.UNEXPECTED_ERROR, d)

/-- send_payload from epos.c: the outbound payload is handed to rt_spwrite
atomically (negative length); `num_not_written` is rt_spwrite's result.  A
nonzero count resets the state to READY, zero moves it to SENDING_DATA.  The
rt_spset_thrs call touches only the transport, not the driver variables. -/
def send_payload (d : Driver) (num_not_written : Int) : Driver :=
  if num_not_written ≠ 0 then { d with state := .READY }
  else { d with state := .SENDING_DATA }

/-- read_begin_ack from epos.c, with the byte delivered by rt_spread passed in
as `ack` and the rt_spwrite result for the subsequent payload submission as
`payload_not_written`: byte 79 (the character O) submits the payload via
send_payload, any other byte resets the state to READY. -/
def read_begin_ack (d : Driver) (ack : Nat) (payload_not_written : Int) : Driver :=
  if ack = 79 then send_payload d payload_not_written
  else { d with state := .READY }

/-- serial_callback from epos.c: dispatch on the current state.  READY
returns at once; SENDING_OPCODE and SENDING_DATA advance when the transmit
buffer is reported fully free (txfree = MAX_PAYLOAD); WAITING_BEGIN_ACK reads
the acknowledgment byte when exactly one byte is receivable; the remaining
states are empty stubs in the source. -/
def serial_callback (d : Driver) (rxavail txfree : Int) (ack : Nat)
    (payload_not_written : Int) : Driver :=
  match d.state with
  | .READY => d
  | .SENDING_OPCODE =>
      if txfree = MAX_PAYLOAD then { d with state := .WAITING_BEGIN_ACK } else d
  | .WAITING_BEGIN_ACK =>
      if rxavail = 1 then read_begin_ack d ack payload_not_written else d
  | .SENDING_DATA =>
      if txfree = MAX_PAYLOAD then { d with state := .WAITING_END_ACK } else d
  | .WAITING_END_ACK => d
  | .WAITING_RESPONSE_LEN => d
  | .WAITING_RESPONSE_DATA => d
  | .SENDING_RESPONSE_ACK => d

/-- Payload-filling section of write_object in epos.c (the lines after the
successful send_opcode).  The u16/u8/u8/u32 parameter types are modelled by
truncation.  Byte 0 holds the data length minus one, bytes 1-2 the index
little-endian, byte 3 the subindex, byte 4 the node id, bytes 5-8 the data
little-endian, bytes 9-10 the little-endian CRC computed by seeding
crc_ccitt_byte with the opcode 0x11 and folding crc_ccitt over the first 9
payload bytes; the recorded length becomes 11. -/
def fill_outbound (d : Driver) (index subindex nodeid data : Nat) : Driver :=
  let index := index % 65536
  let subindex := subindex % 256
  let nodeid := nodeid % 256
  let data := data % 4294967296
  let opcode : Nat := 0x11
  let body : Nat → Nat := fun i =>
    if i = 0 then 3
    else if i = 1 then index % 256
    else if i = 2 then index / 256 % 256
    else if i = 3 then subindex
    else if i = 4 then nodeid
    else if i = 5 then data % 256
    else if i = 6 then data / 256 % 256
    else if i = 7 then data / 65536 % 256
    else if i = 8 then data / 16777216 % 256
    else d.outbound_payload i
  let crc := crc_ccitt (crc_ccitt_byte 0 opcode) ((List.range 9).map body)
  let buf : Nat → Nat := fun i =>
    if i = 9 then crc % 256
    else if i = 10 then crc / 256 % 256
    else body i
  { d with outbound_payload := buf, outbound_payload_len := 11 }

/-- write_object from epos.c, the admission path: from a state other than
READY it returns DRIVER_BUSY at once; otherwise it submits the opcode byte
(send_opcode, whose rt_spwrite result is passed in as `num_not_written`) and,
only on SUCCESS, fills the outbound payload via fill_outbound. -/
def write_object (d : Driver) (index subindex nodeid data : Nat)
    (num_not_written : Int) : write_status_t × Driver :=
  if d.state ≠ .READY then (.DRIVER_BUSY, d)
  else
    let r := send_opcode d num_not_written
    if r.1 ≠ .SUCCESS then r
    else (.SUCCESS, fill_outbound r.2 index subindex nodeid data)

/-- An external stimulus to the driver: either a caller invoking write_object
(with the transport's rt_spwrite answer for the opcode byte) or the transport
delivering a serial_callback event (with the transport's answers for any read
or write the handler performs). -/
inductive Event where
  | cmd (index subindex nodeid data : Nat) (num_not_written : Int)
  | cb (rxavail txfree : Int) (ack : Nat) (payload_not_written : Int)

/-- Apply one event to the driver variables. -/
def step (d : Driver) : Event → Driver
  | .cmd index subindex nodeid data nnw =>
      (write_object d index subindex nodeid data nnw).2
  | .cb rx tx ack pnw => serial_callback d rx tx ack pnw

/-- Apply a sequence of events in order. -/
def run (d : Driver) (events : List Event) : Driver :=
  events.foldl step d

/-- The driver variables at module initialisation: static storage, so state
READY (code 0), zeroed buffers and zero lengths. -/
def epos_init_driver : Driver :=
  { state := .READY
    outbound_payload := fun _ => 0
    inbound_payload := fun _ => 0
    outbound_payload_len := 0
    inbound_payload_len := 0 }

/-- A fresh driver placed in an arbitrary state, for concrete instantiation of
the state-indexed theorems. -/
def driverAt (s : driver_state_t) : Driver :=
  { epos_init_driver with state := s }

/-- The three states of driver_state_t that belong to the response-handling
half of the protocol. -/
def responseState (s : driver_state_t) : Prop :=
  s = .WAITING_RESPONSE_LEN ∨ s = .WAITING_RESPONSE_DATA ∨ s = .SENDING_RESPONSE_ACK

/-- The frame shape the specification states for encode_write_request: byte 0
equals 3, bytes 1-2 the index little-endian, byte 3 the subindex, byte 4 the
node id, bytes 5-8 the data little-endian, bytes 9-10 the little-endian
CRC-CCITT (seed 0) of the opcode byte 0x11 followed by the first 9 payload
bytes, and recorded payload length 11. -/
def encode_write_request_spec (index subindex nodeid data : Nat) (d : Driver) : Prop :=
  d.outbound_payload 0 = 3 ∧
  d.outbound_payload 1 = index % 256 ∧
  d.outbound_payload 2 = index / 256 % 256 ∧
  d.outbound_payload 3 = subindex ∧
  d.outbound_payload 4 = nodeid ∧
  d.outbound_payload 5 = data % 256 ∧
  d.outbound_payload 6 = data / 256 % 256 ∧
  d.outbound_payload 7 = data / 65536 % 256 ∧
  d.outbound_payload 8 = data / 16777216 % 256 ∧
  d.outbound_payload 9 =
    crc_ccitt 0 (0x11 :: (List.range 9).map d.outbound_payload) % 256 ∧
  d.outbound_payload 10 =
    crc_ccitt 0 (0x11 :: (List.range 9).map d.outbound_payload) / 256 % 256 ∧
  d.outbound_payload_len = 11

/-- The scripted event sequence of the specification: admit
write(index 0x2031, subindex 0, node 1, data 100) with the transport
accepting the opcode byte, then transmit buffer reported fully free, then the
begin-ack byte O receivable with the transport accepting the whole payload,
then transmit buffer reported fully free again. -/
def c2_events : List Event :=
  [Event.cmd 0x2031 0 1 100 0,
   Event.cb 0 14 0 0,
   Event.cb 1 0 79 0,
   Event.cb 0 14 0 0]

/-- A driver mid-transaction in WAITING_BEGIN_ACK with the encoded frame in
the outbound buffer: the initial driver after admission and opcode
transmission. -/
def c3_driver : Driver :=
  run epos_init_driver [Event.cmd 0x2031 0 1 100 0, Event.cb 0 14 0 0]

/-- Helper: mapping a function over List.range 9 lists its first nine
values. -/
lemma range9_map (f : Nat → Nat) :
    (List.range 9).map f = [f 0, f 1, f 2, f 3, f 4, f 5, f 6, f 7, f 8] := by
  rfl

/-- Helper: the buffer produced by fill_outbound satisfies the
specification's frame shape. -/
lemma fill_outbound_spec (d : Driver) (index subindex nodeid data : Nat)
    (hi : index < 65536) (hsub : subindex < 256) (hnode : nodeid < 256)
    (hdata : data < 4294967296) :
    encode_write_request_spec index subindex nodeid data
      (fill_outbound d index subindex nodeid data) := by
  unfold fill_outbound encode_write_request_spec
  refine ⟨?_, ?_, ?_, ?_, ?_, ?_, ?_, ?_, ?_, ?_, ?_, ?_⟩ <;>
    simp [range9_map, crc_ccitt, List.foldl_cons, Nat.mod_eq_of_lt hi,
      Nat.mod_eq_of_lt hsub, Nat.mod_eq_of_lt hnode, Nat.mod_eq_of_lt hdata]

/-- C1: whenever write_object admits a request (returns SUCCESS), the
outbound payload holds the 11-byte frame the specification states: byte 0
equals 3, bytes 1-2 the index little-endian, byte 3 the subindex, byte 4 the
node id, bytes 5-8 the data little-endian, bytes 9-10 the little-endian
CRC-CCITT (seed 0) of the opcode byte 0x11 followed by the first 9 payload
bytes, and the recorded payload length is 11. -/
theorem c1_write_frame (d : Driver) (index subindex nodeid data : Nat)
    (num_not_written : Int)
    (hi : index < 65536) (hsub : subindex < 256) (hnode : nodeid < 256)
    (hdata : data < 4294967296)
    (hok : (write_object d index subindex nodeid data num_not_written).1 =
      .SUCCESS) :
    encode_write_request_spec index subindex nodeid data
      (write_object d index subindex nodeid data num_not_written).2 := by
  by_cases h1 : d.state = .READY
  · by_cases h2 : (send_opcode d num_not_written).1 = .SUCCESS
    · have hred : (write_object d index subindex nodeid data num_not_written).2 =
          fill_outbound (send_opcode d num_not_written).2 index subindex nodeid data := by
        simp [write_object, h1, h2]
      rw [hred]
      exact fill_outbound_spec _ index subindex nodeid data hi hsub hnode hdata
    · simp [write_object, h1, h2] at hok
  · simp [write_object, h1] at hok

/-- Witness for c1_write_frame at the concrete request of the scripted
sequence. -/
theorem c1_write_frame_witness :
    ((0x2031 : Nat) < 65536 ∧ (0 : Nat) < 256 ∧ (1 : Nat) < 256 ∧
      (100 : Nat) < 4294967296 ∧
      (write_object epos_init_driver 0x2031 0 1 100 0).1 = write_status_t.SUCCESS) ∧
    encode_write_request_spec 0x2031 0 1 100
      (write_object epos_init_driver 0x2031 0 1 100 0).2 :=
  ⟨⟨by decide, by decide, by decide, by decide, by decide⟩,
   c1_write_frame epos_init_driver 0x2031 0 1 100 0 (by decide) (by decide)
     (by decide) (by decide) (by decide)⟩

/-- C4: calling write_object from any state other than READY returns
DRIVER_BUSY and leaves the state, both payload buffers and both recorded
lengths unchanged (the whole driver record is returned untouched). -/
theorem c4_busy_rejection (d : Driver) (index subindex nodeid data : Nat)
    (num_not_written : Int) (h : d.state ≠ .READY) :
    write_object d index subindex nodeid data num_not_written =
      (.DRIVER_BUSY, d) := by
  simp [write_object, h]

/-- Witness for c4_busy_rejection at a concrete mid-transaction driver. -/
theorem c4_busy_rejection_witness :
    (driverAt .SENDING_DATA).state ≠ driver_state_t.READY ∧
    write_object (driverAt .SENDING_DATA) 5 6 7 8 0 =
      (.DRIVER_BUSY, driverAt .SENDING_DATA) :=
  ⟨by decide, c4_busy_rejection (driverAt .SENDING_DATA) 5 6 7 8 0 (by decide)⟩

/-- C5: when the transport accepts none of the single opcode byte
(rt_spwrite reports 1 byte not written), write_object called from READY
returns SERIAL_BUF_FULL and returns the driver record unchanged, so the state
stays READY and no buffer or length is mutated. -/
theorem c5_buffer_full_rejection (d : Driver) (index subindex nodeid data : Nat)
    (h : d.state = .READY) :
    write_object d index subindex nodeid data 1 = (.SERIAL_BUF_FULL, d) := by
  simp [write_object, send_opcode, h]

/-- Witness for c5_buffer_full_rejection at the initial driver. -/
theorem c5_buffer_full_rejection_witness :
    epos_init_driver.state = driver_state_t.READY ∧
    write_object epos_init_driver 5 6 7 8 1 = (.SERIAL_BUF_FULL, epos_init_driver) :=
  ⟨by decide, c5_buffer_full_rejection epos_init_driver 5 6 7 8 (by decide)⟩

/-- C6: the acknowledgment byte read in WAITING_BEGIN_ACK is decoded as
accept exactly for byte 79 (the character O), in which case the payload is
submitted to the transport via send_payload; every other byte is rejected,
the driver returning to READY without any payload submission, in particular
never proceeding to SENDING_DATA. -/
theorem c6_ack_decoding (d : Driver) (ack : Nat) (payload_not_written : Int) :
    (ack = 79 →
      read_begin_ack d ack payload_not_written = send_payload d payload_not_written) ∧
    (ack ≠ 79 →
      read_begin_ack d ack payload_not_written = { d with state := .READY }) ∧
    (ack ≠ 79 →
      (read_begin_ack d ack payload_not_written).state ≠ .SENDING_DATA) := by
  refine ⟨fun h => ?_, fun h => ?_, fun h => ?_⟩ <;> simp [read_begin_ack, h]

/-- Witness for c6_ack_decoding at the concrete bytes 79 and 88. -/
theorem c6_ack_decoding_witness :
    read_begin_ack c3_driver 79 0 = send_payload c3_driver 0 ∧
    read_begin_ack c3_driver 88 0 = { c3_driver with state := .READY } :=
  ⟨(c6_ack_decoding c3_driver 79 0).1 rfl,
   (c6_ack_decoding c3_driver 88 0).2.1 (by decide)⟩

/-- C7: a transport event delivered in SENDING_OPCODE moves the state to
WAITING_BEGIN_ACK exactly when it reports the transmit buffer fully free
(txfree = 14, the full FIFO capacity) and otherwise changes nothing;
symmetrically an event in SENDING_DATA moves the state to WAITING_END_ACK
exactly when txfree = 14 and otherwise changes nothing. -/
theorem c7_transmit_transitions (d : Driver) (rxavail txfree : Int) (ack : Nat)
    (payload_not_written : Int) :
    (d.state = .SENDING_OPCODE →
      serial_callback d rxavail txfree ack payload_not_written =
        if txfree = 14 then { d with state := .WAITING_BEGIN_ACK } else d) ∧
    (d.state = .SENDING_DATA →
      serial_callback d rxavail txfree ack payload_not_written =
        if txfree = 14 then { d with state := .WAITING_END_ACK } else d) := by
  refine ⟨fun h => ?_, fun h => ?_⟩ <;> simp [serial_callback, h, MAX_PAYLOAD]

/-- Witness for c7_transmit_transitions at concrete drivers and events. -/
theorem c7_transmit_transitions_witness :
    serial_callback (driverAt .SENDING_OPCODE) 0 14 0 0 =
      (if (14 : Int) = 14 then { driverAt .SENDING_OPCODE with state := .WAITING_BEGIN_ACK }
       else driverAt .SENDING_OPCODE) ∧
    serial_callback (driverAt .SENDING_DATA) 0 3 0 0 =
      (if (3 : Int) = 14 then { driverAt .SENDING_DATA with state := .WAITING_END_ACK }
       else driverAt .SENDING_DATA) :=
  ⟨(c7_transmit_transitions (driverAt .SENDING_OPCODE) 0 14 0 0).1 rfl,
   (c7_transmit_transitions (driverAt .SENDING_DATA) 0 3 0 0).2 rfl⟩

/-- C9: send_payload leaves the driver in exactly one of two states:
SENDING_DATA when the transport accepted the whole payload (zero bytes not
written) and READY for any other count, so the driver is never left
mid-transmission with a partially committed payload. -/
theorem c9_send_payload_states (d : Driver) (num_not_written : Int) :
    (send_payload d num_not_written).state =
      if num_not_written = 0 then .SENDING_DATA else .READY := by
  unfold send_payload
  split_ifs with h1 h2 <;> simp_all

/-- Helper: a serial_callback event never moves the driver into one of the
response-handling states. -/
lemma serial_callback_not_response (d : Driver) (rxavail txfree : Int) (ack : Nat)
    (payload_not_written : Int) (h : ¬ responseState d.state) :
    ¬ responseState (serial_callback d rxavail txfree ack payload_not_written).state := by
  rcases d with ⟨s, ob, ib, ol, il⟩
  cases s <;>
    simp_all [serial_callback, read_begin_ack, send_payload, responseState] <;>
    split_ifs <;> simp_all

/-- Helper: fill_outbound touches only the outbound buffer and its recorded
length, never the state. -/
lemma fill_outbound_state (d : Driver) (index subindex nodeid data : Nat) :
    (fill_outbound d index subindex nodeid data).state = d.state := rfl

/-- Helper: send_opcode either leaves the state unchanged or sets it to
SENDING_OPCODE. -/
lemma send_opcode_state_cases (d : Driver) (num_not_written : Int) :
    (send_opcode d num_not_written).2.state = d.state ∨
    (send_opcode d num_not_written).2.state = .SENDING_OPCODE := by
  unfold send_opcode
  split_ifs <;> simp

/-- Helper: write_object either leaves the state unchanged or sets it to
SENDING_OPCODE. -/
lemma write_object_state_cases (d : Driver) (index subindex nodeid data : Nat)
    (num_not_written : Int) :
    ((write_object d index subindex nodeid data num_not_written).2).state = d.state ∨
    ((write_object d index subindex nodeid data num_not_written).2).state =
      .SENDING_OPCODE := by
  simp only [write_object]
  split_ifs with h1 h2
  · simp
  · rcases send_opcode_state_cases d num_not_written with h | h <;> simp [h]
  · rcases send_opcode_state_cases d num_not_written with h | h <;>
      simp [fill_outbound_state, h]

/-- Helper: one event of either kind never moves the driver into one of the
response-handling states. -/
lemma step_not_response (d : Driver) (e : Event) (h : ¬ responseState d.state) :
    ¬ responseState (step d e).state := by
  cases e with
  | cmd index subindex nodeid data nnw =>
      rcases write_object_state_cases d index subindex nodeid data nnw with hw | hw <;>
        simp_all [step, responseState]
  | cb rx tx ack pnw => exact serial_callback_not_response d rx tx ack pnw h

/-- Helper: no event sequence moves the driver from a non-response state into
a response-handling state. -/
lemma run_not_response (events : List Event) :
    ∀ d : Driver, ¬ responseState d.state → ¬ responseState (run d events).state := by
  induction events with
  | nil => exact fun d h => h
  | cons e es ih =>
      intro d h
      have hstep := step_not_response d e h
      simpa [run, List.foldl] using ih (step d e) hstep

/-- C8: from READY, no sequence of write_object calls and serial_callback
events reaches WAITING_RESPONSE_LEN, WAITING_RESPONSE_DATA or
SENDING_RESPONSE_ACK; and WAITING_END_ACK is absorbing: neither kind of event
changes the state there. -/
theorem c8_response_states_unreachable :
    (∀ (d : Driver) (events : List Event), d.state = .READY →
        ¬ responseState (run d events).state) ∧
    (∀ (d : Driver) (e : Event), d.state = .WAITING_END_ACK →
        (step d e).state = .WAITING_END_ACK) := by
  constructor
  · intro d events h
    exact run_not_response events d (by simp [responseState, h])
  · intro d e h
    cases e with
    | cmd index subindex nodeid data nnw => simp [step, write_object, h]
    | cb rx tx ack pnw => simp [step, serial_callback, h]

/-- Witness for c8_response_states_unreachable: the scripted run from the
initial driver, and one event applied in WAITING_END_ACK. -/
theorem c8_response_states_unreachable_witness :
    ¬ responseState (run epos_init_driver c2_events).state ∧
    (step (driverAt .WAITING_END_ACK) (Event.cb 1 14 79 0)).state =
      driver_state_t.WAITING_END_ACK :=
  ⟨c8_response_states_unreachable.1 epos_init_driver c2_events rfl,
   c8_response_states_unreachable.2 (driverAt .WAITING_END_ACK) (Event.cb 1 14 79 0) rfl⟩

/-- C2 counterexample: after the specification's scripted event sequence
(write admitted, transmit free, begin-ack O, transmit free again) the driver
has not returned to READY. -/
theorem c2_counterexample :
    (run epos_init_driver c2_events).state ≠ driver_state_t.READY := by
  decide

/-- C2 amended: the scripted sequence's admission call returns SUCCESS, and
the four events leave the driver in WAITING_END_ACK, the state whose
serial_callback case is an empty stub in the source, so no terminal outcome is
reported and the state does not return to READY. -/
theorem c2_run_ends_in_waiting_end_ack :
    (write_object epos_init_driver 0x2031 0 1 100 0).1 = write_status_t.SUCCESS ∧
    (run epos_init_driver c2_events).state = driver_state_t.WAITING_END_ACK := by
  decide

/-- C3 evidence: in WAITING_BEGIN_ACK with the encoded frame recorded (length
11), receiving the nack byte 88 (the character X) resets the state to READY
but leaves the outbound buffer and its recorded length untouched, and the
return-code vocabulary write_status_t has no ProtocolNack member, so the
failure is never delivered to the caller. -/
theorem c3_nack_not_reported :
    c3_driver.state = driver_state_t.WAITING_BEGIN_ACK ∧
    c3_driver.outbound_payload_len = 11 ∧
    serial_callback c3_driver 1 0 88 0 = { c3_driver with state := .READY } ∧
    (serial_callback c3_driver 1 0 88 0).outbound_payload_len = 11 ∧
    (serial_callback c3_driver 1 0 88 0).outbound_payload 0 = 3 := by
  refine ⟨by decide, by decide, ?_, by decide, by decide⟩
  rfl

/-- C10: a transport event delivered in READY is ignored: serial_callback
returns the driver record unchanged, so neither the state, nor the buffers,
nor the recorded lengths are modified. -/
theorem c10_ready_callback_noop (d : Driver) (rxavail txfree : Int) (ack : Nat)
    (payload_not_written : Int) (h : d.state = .READY) :
    serial_callback d rxavail txfree ack payload_not_written = d := by
  simp [serial_callback, h]

/-- Witness for c10_ready_callback_noop at the initial driver. -/
theorem c10_ready_callback_noop_witness :
    epos_init_driver.state = driver_state_t.READY ∧
    serial_callback epos_init_driver 1 14 79 0 = epos_init_driver :=
  ⟨by decide, c10_ready_callback_noop epos_init_driver 1 14 79 0 (by decide)⟩

end Epos
